import Mathlib

/-!
Verification of the eka-sdk-go credential/token lifecycle manager and its
surrounding utilities, as a shallow embedding in Lean.

Conventions of the embedding:
* Go `time.Time` values are modelled as `Int` nanosecond timestamps;
  `t1.After t2` is `t1 > t2`, `t1.Before t2` is `t1 < t2`, matching the
  strict comparisons of the Go standard library.
* Network calls (the auth exchange `ClientLogin` / `RefreshToken` and the
  HTTP transport) are modelled as oracle functions passed explicitly; a
  model function records the requests it issued, so "no network call
  happens" is the statement that the recorded request list is empty.
* Go `error` values are modelled by the inductive `GoError`; `fmt.Errorf`
  wrapping with `%w` becomes the `wrapped` constructor.
* External collaborators (JSON codec, `url.Values.Encode`) are modelled
  per their documented behaviour where the claims depend on them.
-/

namespace EkaSDK

/-- One second in nanoseconds, as in Go `time.Second`. -/
def second : Int := 1000000000

/-- One minute in nanoseconds, as in Go `time.Minute`. -/
def minute : Int := 60 * second

/-- Model of Go `error` values produced by the SDK: the transport's
`APIError`, the unparseable-body fallback `fmt.Errorf("HTTP %d: %s", ...)`,
`fmt.Errorf("...: %w", err)` wrapping, and plain `fmt.Errorf` messages. -/
inductive GoError where
  | apiError (code : Int) (message : String)
  | httpStatus (status : Int) (body : String)
  | wrapped (context : String) (inner : GoError)
  | simple (message : String)
deriving Repr, DecidableEq

/-- The status code of the API error at the root of a chain of wrappers. -/
def GoError.rootCode : GoError → Option Int
  | .apiError code _ => some code
  | .wrapped _ inner => inner.rootCode
  | _ => none

/-- The message of the API error at the root of a chain of wrappers. -/
def GoError.rootMessage : GoError → Option String
  | .apiError _ message => some message
  | .wrapped _ inner => inner.rootMessage
  | _ => none

/-- `auth.Credentials` (src/auth/credentials.go). Timestamps are absolute
nanosecond instants. -/
structure Credentials where
  accessToken : String
  refreshToken : String
  expiresAt : Int
  refreshExpiresAt : Int
  source : String
deriving Repr, DecidableEq

/-- `Credentials.Expired` (credentials.go line 35):
`time.Now().After(c.ExpiresAt.Add(-5 * time.Minute))`, with the current
time passed explicitly. -/
def Credentials.Expired (c : Credentials) (now : Int) : Bool :=
  now > c.expiresAt - 5 * minute

/-- `Credentials.CanRefresh` (credentials.go line 40):
`c.RefreshToken != "" && time.Now().Before(c.RefreshExpiresAt)`. -/
def Credentials.CanRefresh (c : Credentials) (now : Int) : Bool :=
  c.refreshToken != "" && now < c.refreshExpiresAt

/-- `auth.ClientLoginRequest` (client id/secret pair). -/
structure ClientLoginRequest where
  clientID : String
  clientSecret : String
deriving Repr, DecidableEq

/-- `auth.RefreshTokenRequest`. -/
structure RefreshTokenRequest where
  accessToken : String
  refreshToken : String
deriving Repr, DecidableEq

/-- `auth.ClientLoginResponse` and `auth.RefreshTokenResponse`, which have
the same shape: token material plus relative lifetimes in seconds. -/
structure TokenResponse where
  accessToken : String
  refreshToken : String
  expiresIn : Int
  refreshExpiresIn : Int
deriving Repr, DecidableEq

/-- Credentials built from an exchange response at time `now`, as in
credentials.go lines 111-117 and 129-135:
`ExpiresAt = time.Now().Add(time.Duration(resp.ExpiresIn) * time.Second)`. -/
def credsFromResponse (r : TokenResponse) (now : Int) (src : String) : Credentials :=
  { accessToken := r.accessToken
    refreshToken := r.refreshToken
    expiresAt := now + r.expiresIn * second
    refreshExpiresAt := now + r.refreshExpiresIn * second
    source := src }

end EkaSDK

namespace EkaSDK

/-- `errors.IsRetryableError` (src/internal/errors/errors.go lines 48-55):
a type assertion to `*APIError`, then `Code >= 500 || Code == 429`;
any other error kind yields `false`. -/
def IsRetryableError (err : GoError) : Bool :=
  match err with
  | .apiError code _ => code ≥ 500 || code == 429
  | _ => false

/-- The per-attempt retry decision of `retryTransport.RoundTrip`
(src/unnamed/part_011 lines 58-77): the response is accepted and returned
iff the round trip produced no network error and `resp.StatusCode < 500`;
otherwise another attempt is made. `netErr` is whether the round trip
returned a non-nil error. -/
def retryTransportShouldRetry (netErr : Bool) (status : Int) : Bool :=
  netErr || status ≥ 500

end EkaSDK

namespace EkaSDK

/-- The optional `source_error` member of the transport error envelope. -/
structure SourceError where
  code : String
  message : String
deriving Repr, DecidableEq

/-- `http.ErrorResponse`: the decoded error envelope
`{code:int, error:string, source_error?:{code,message}}`. -/
structure ErrorResponse where
  code : Int
  error : String
  sourceError : Option SourceError
deriving Repr, DecidableEq

/-- `ErrorResponse.String` (internal http client): formats
`"Error %d: %s"`, appending the source error when present. -/
def ErrorResponse.string (e : ErrorResponse) : String :=
  match e.sourceError with
  | some se =>
      "Error " ++ toString e.code ++ ": " ++ e.error ++
        " (Source: " ++ se.code ++ " - " ++ se.message ++ ")"
  | none => "Error " ++ toString e.code ++ ": " ++ e.error

/-- `interfaces.HTTPResponse`: status code plus raw body (headers omitted;
no claim depends on them). -/
structure HTTPResponse where
  statusCode : Int
  body : String
deriving Repr, DecidableEq

/-- The outcome classification of the internal `http.Client.Do` after the
wire exchange: `status >= 400` with a body that decodes as the error
envelope becomes `APIError{Code: status, Message: errorResp.String()}`;
an undecodable body becomes `fmt.Errorf("HTTP %d: %s", status, body)`;
otherwise the response is returned. `parsedBody` is the JSON codec's
(collaborator) decoding of `body` as `ErrorResponse`. -/
def httpDoClassify (status : Int) (body : String)
    (parsedBody : Option ErrorResponse) : Except GoError HTTPResponse :=
  if status ≥ 400 then
    match parsedBody with
    | none => .error (.httpStatus status body)
    | some er => .error (.apiError status er.string)
  else
    .ok { statusCode := status, body := body }

/-- `auth.Service.ClientLogin` (src/unnamed/part_007): issues the login
POST and wraps a transport failure as
`fmt.Errorf("client login request failed: %w", err)`, an unmarshal
failure as `fmt.Errorf("failed to unmarshal client login response: %w", err)`.
`httpResult` is the transport's outcome and `unmarshal` the JSON codec. -/
def clientLoginExchange (httpResult : Except GoError HTTPResponse)
    (unmarshal : String → Except GoError TokenResponse) :
    Except GoError TokenResponse :=
  match httpResult with
  | .error e => .error (.wrapped "client login request failed" e)
  | .ok resp =>
      match unmarshal resp.body with
      | .error e => .error (.wrapped "failed to unmarshal client login response" e)
      | .ok r => .ok r

/-- `auth.ClientCredentialsProvider` state: the fixed login request built
from the configured client id/secret, and the cached credential
(`nil` initially). -/
structure ClientCredentialsProvider where
  request : ClientLoginRequest
  cache : Option Credentials
deriving Repr, DecidableEq

deriving instance DecidableEq for Except

/-- Observable outcome of one `Retrieve` call: the returned value or
error, the cache contents afterwards, and the network authentication
requests issued (in order) against the refresh and login endpoints. -/
structure RetrieveOutcome where
  result : Except GoError Credentials
  cache : Option Credentials
  refreshRequests : List RefreshTokenRequest
  loginRequests : List ClientLoginRequest
deriving Repr, DecidableEq

/-- The refresh request `Retrieve` builds from the cached credential
(credentials.go lines 104-107). -/
def refreshReqOf (c : Credentials) : RefreshTokenRequest :=
  { accessToken := c.accessToken, refreshToken := c.refreshToken }

/-- The login tail of `Retrieve` (credentials.go lines 123-137): perform
`ClientLogin` with the configured request; on error return it and leave
the cache as it was; on success replace the cache and return the new
credentials. `refreshRequests` records the refresh attempt (if any) made
before falling back. -/
def ClientCredentialsProvider.loginStep (p : ClientCredentialsProvider) (now : Int)
    (login : ClientLoginRequest → Except GoError TokenResponse)
    (refreshRequests : List RefreshTokenRequest) : RetrieveOutcome :=
  match login p.request with
  | .error e =>
      { result := .error e, cache := p.cache
        refreshRequests := refreshRequests, loginRequests := [p.request] }
  | .ok r =>
      let c := credsFromResponse r now "ClientCredentialsProvider(login)"
      { result := .ok c, cache := some c
        refreshRequests := refreshRequests, loginRequests := [p.request] }

/-- `ClientCredentialsProvider.Retrieve` (credentials.go lines 85-138).
The RLock fast path and the double-check under the write lock collapse to
a single cache check in this sequential model; `refresh` and `login` are
the auth-exchange oracles (`Service.RefreshToken` / `Service.ClientLogin`). -/
def ClientCredentialsProvider.Retrieve (p : ClientCredentialsProvider) (now : Int)
    (refresh : RefreshTokenRequest → Except GoError TokenResponse)
    (login : ClientLoginRequest → Except GoError TokenResponse) : RetrieveOutcome :=
  match p.cache with
  | some c =>
      if c.Expired now = false then
        { result := .ok c, cache := some c, refreshRequests := [], loginRequests := [] }
      else if c.CanRefresh now then
        match refresh (refreshReqOf c) with
        | .ok r =>
            let nc := credsFromResponse r now "ClientCredentialsProvider(refresh)"
            { result := .ok nc, cache := some nc
              refreshRequests := [refreshReqOf c], loginRequests := [] }
        | .error _ => p.loginStep now login [refreshReqOf c]
      else
        p.loginStep now login []
  | none => p.loginStep now login []

/-- `Client.Login` (src/client.go lines 315-349): requires a non-empty
client id and secret, builds a fresh `ClientCredentialsProvider` (empty
cache) and calls `Retrieve`; a failure is wrapped as
`fmt.Errorf("failed to authenticate with provided credentials: %w", err)`.
The returned pair is the call's error outcome and the provider's cache
afterwards. -/
def clientLoginFlow (clientID clientSecret : String) (now : Int)
    (refresh : RefreshTokenRequest → Except GoError TokenResponse)
    (login : ClientLoginRequest → Except GoError TokenResponse) :
    Except GoError Unit × Option Credentials :=
  if clientID = "" then
    (.error (.simple "client ID is required for authentication"), none)
  else if clientSecret = "" then
    (.error (.simple "client secret is required for authentication"), none)
  else
    let p : ClientCredentialsProvider :=
      { request := { clientID := clientID, clientSecret := clientSecret }, cache := none }
    let o := p.Retrieve now refresh login
    match o.result with
    | .error e => (.error (.wrapped "failed to authenticate with provided credentials" e), o.cache)
    | .ok _ => (.ok (), o.cache)

/-- `auth.StaticCredentialsProvider` (credentials.go lines 44-66). -/
structure StaticCredentialsProvider where
  credentials : Credentials
deriving Repr, DecidableEq

/-- `NewStaticCredentialsProvider` (credentials.go lines 50-61). -/
def NewStaticCredentialsProvider (accessToken refreshToken : String)
    (expiresIn refreshExpiresIn : Int) (now : Int) : StaticCredentialsProvider :=
  { credentials :=
      { accessToken := accessToken
        refreshToken := refreshToken
        expiresAt := now + expiresIn * second
        refreshExpiresAt := now + refreshExpiresIn * second
        source := "StaticCredentialsProvider" } }

/-- `StaticCredentialsProvider.Retrieve` (credentials.go lines 64-66):
`return p.credentials, nil` — no expiry check, no network call. -/
def StaticCredentialsProvider.Retrieve (p : StaticCredentialsProvider) : RetrieveOutcome :=
  { result := .ok p.credentials, cache := some p.credentials
    refreshRequests := [], loginRequests := [] }

end EkaSDK

namespace EkaSDK

/-- `utils.Service.ValidateABHAAddress`
(src/internal/utils/service.go lines 67-79), returning `some message` for
a Go error and `none` for nil. Go slices bytes; ASCII addresses make the
character-level model exact. -/
def ValidateABHAAddress (address : String) : Option String :=
  if address.length < 3 then
    some "ABHA address must be at least 3 characters"
  else if address.length ≥ 5 &&
      (String.mk (address.data.drop (address.length - 5)) != "@abdm") then
    some "ABHA address must end with @abdm"
  else
    none

/-- Outcome of `utils.Service.RetryWithBackoff`: success (`nil`), the last
operation error after exhausting all attempts, or the context's error when
cancellation fired during a backoff wait. -/
inductive RetryOutcome where
  | ok
  | failed (e : GoError)
  | cancelled (e : GoError)
deriving Repr, DecidableEq

/-- The loop body of `utils.Service.RetryWithBackoff`
(src/internal/utils/service.go lines 92-115), from loop counter `attempt`
with `remaining = maxRetries - attempt` further attempts allowed and the
current `delay`. `fn i` is the operation's result on its i-th invocation
(`none` = nil error); `cancel i` is whether `ctx.Done()` fires during the
wait that follows invocation `i`. Returns the outcome together with the
list of waits performed, in order. -/
def retryLoop (fn : Nat → Option GoError) (cancel : Nat → Bool) (ctxErr : GoError) :
    Nat → Nat → Int → RetryOutcome × List Int
  | attempt, remaining, delay =>
    match fn attempt with
    | none => (.ok, [])
    | some e =>
      match remaining with
      | 0 => (.failed e, [])
      | r + 1 =>
        if cancel attempt then (.cancelled ctxErr, [])
        else
          let rest := retryLoop fn cancel ctxErr (attempt + 1) r (2 * delay)
          (rest.1, delay :: rest.2)

/-- `utils.Service.RetryWithBackoff` (service.go lines 92-115): attempts
run for `attempt = 0 .. maxRetries`; after a failed attempt that is not
the last, the loop waits `delay` (doubling it each time) unless the
context is done, in which case `ctx.Err()` is returned. -/
def RetryWithBackoff (fn : Nat → Option GoError) (cancel : Nat → Bool)
    (ctxErr : GoError) (maxRetries : Nat) (initialDelay : Int) :
    RetryOutcome × List Int :=
  retryLoop fn cancel ctxErr 0 maxRetries initialDelay

end EkaSDK

namespace EkaSDK

/-- Upper-case hexadecimal digit, as `net/url` uses in percent escapes. -/
def upperHexDigit (n : Nat) : Char :=
  if n < 10 then Char.ofNat (48 + n) else Char.ofNat (55 + n)

/-- Query escaping of one character per Go `net/url` (collaborator model):
alphanumerics and `-_.~` unescaped, space becomes `+`, anything else a
percent escape. (Go escapes UTF-8 bytes; on ASCII, where all of this
repository's parameters live, the character-level model is exact.) -/
def queryEscapeChar (c : Char) : List Char :=
  if ('a' ≤ c && c ≤ 'z') || ('A' ≤ c && c ≤ 'Z') || ('0' ≤ c && c ≤ '9')
      || c = '-' || c = '_' || c = '.' || c = '~' then [c]
  else if c = ' ' then ['+']
  else ['%', upperHexDigit (c.toNat / 16 % 16), upperHexDigit (c.toNat % 16)]

/-- Query escaping of a string per Go `net/url.QueryEscape`. -/
def queryEscape (s : String) : String :=
  String.mk ((s.data.map queryEscapeChar).flatten)

/-- Insertion into a key-sorted association list (model of the key sort
performed by `url.Values.Encode`). -/
def insertByKey (p : String × String) : List (String × String) → List (String × String)
  | [] => [p]
  | q :: qs => if p.1 ≤ q.1 then p :: q :: qs else q :: insertByKey p qs

/-- Sort parameters by key, as `url.Values.Encode` does. -/
def sortByKey : List (String × String) → List (String × String)
  | [] => []
  | p :: ps => insertByKey p (sortByKey ps)

/-- Join `k=v` fragments with `&`, as `url.Values.Encode` does. -/
def joinAmp : List String → String
  | [] => ""
  | [x] => x
  | x :: xs => x ++ "&" ++ joinAmp xs

/-- `url.Values.Encode` (collaborator model): sort by key, escape each key
and value, join with `&`. Each key holds a single value here because
`Client.Do` fills the values with `q.Set`. -/
def encodeValues (vs : List (String × String)) : String :=
  joinAmp ((sortByKey vs).map (fun p => queryEscape p.1 ++ "=" ++ queryEscape p.2))

/-- The URL construction of the internal `http.Client.Do`
(assembled under src/Makefile, `Do`): parse `baseURL + path`, then
`q.Set(k, v)` for every parameter with `v != ""`, and install
`q.Encode()` as the query string. `params` carries the entries of the Go
map `req.Params` (distinct keys). For a well-formed base and path with no
query or fragment of their own, `u.String()` is the concatenation below,
with `?` present exactly when the encoded query is non-empty. -/
def buildRequestURL (baseURL path : String) (params : List (String × String)) : String :=
  let kept := params.filter (fun p => p.2 != "")
  let q := encodeValues kept
  baseURL ++ path ++ (if q = "" then "" else "?" ++ q)

/-- The error envelope of the mock 401 login rejection scenario:
`{"code":401,"error":"invalid client credentials"}`. -/
def invalidCredsEnvelope : ErrorResponse :=
  { code := 401, error := "invalid client credentials", sourceError := none }

/-- The error `ClientLogin` produces for that rejected login: the
transport's `APIError` (code 401, message `ErrorResponse.String()`),
wrapped with the login operation context. -/
def authRejectionError : GoError :=
  .wrapped "client login request failed"
    (.apiError 401 "Error 401: invalid client credentials")

end EkaSDK

namespace EkaSDK

/-! Theorems. Each claim of the specification is settled by exactly one
theorem below; helper lemmas are shared. -/

/-- C4 counterexample: with `expires_at` exactly 5 minutes after `now`
(`now = 0`, `expires_at = 5 * minute`), the code reports the credential
usable (`Expired` is `false`), yet `now` is not strictly before
`expires_at - 5 * minute`. So "usable exactly when now is strictly before
expires_at minus the margin" fails at the boundary instant. -/
theorem expired_boundary_counterexample :
    Credentials.Expired
        { accessToken := "t", refreshToken := "", expiresAt := 5 * minute,
          refreshExpiresAt := 0, source := "" } 0 = false ∧
    ¬ ((0 : Int) <
        ({ accessToken := "t", refreshToken := "", expiresAt := 5 * minute,
           refreshExpiresAt := 0, source := "" } : Credentials).expiresAt - 5 * minute) := by
  constructor
  · decide
  · decide

/-- C4 (amended): a credential is usable (`Expired` returns `false`) exactly
when now is at or before `expires_at` minus the fixed 5-minute margin
(non-strict comparison); in particular `expires_at` 10 minutes in the
future is usable and 2 minutes in the future is not. -/
theorem usable_iff_before_margin (c : Credentials) (now : Int) :
    (c.Expired now = false ↔ now ≤ c.expiresAt - 5 * minute) ∧
    (c.expiresAt = now + 10 * minute → c.Expired now = false) ∧
    (c.expiresAt = now + 2 * minute → c.Expired now = true) := by
  simp only [Credentials.Expired, minute, second, gt_iff_lt, decide_eq_false_iff_not,
    not_lt, decide_eq_true_eq]
  exact ⟨trivial, by omega, by omega⟩

/-- Witness for `usable_iff_before_margin` at concrete inputs: at `now = 0`,
expiry 10 minutes out is usable and expiry 2 minutes out is not. -/
theorem usable_iff_before_margin_witness :
    Credentials.Expired
        { accessToken := "t", refreshToken := "", expiresAt := 10 * minute,
          refreshExpiresAt := 0, source := "" } 0 = false ∧
    Credentials.Expired
        { accessToken := "t", refreshToken := "", expiresAt := 2 * minute,
          refreshExpiresAt := 0, source := "" } 0 = true :=
  ⟨(usable_iff_before_margin _ 0).2.1 (by decide),
   (usable_iff_before_margin _ 0).2.2 (by decide)⟩

/-- C7 counterexample: `errors.IsRetryableError` marks a 429 API error
retryable, but the Transport retry middleware (`retryTransport.RoundTrip`)
does not use that classification: it retries only on a network error or a
status of at least 500, so a 429 response is returned without retry. The
classification actually used by Transport therefore does not mark 429
retry-eligible. -/
theorem transport_429_not_retried_counterexample :
    IsRetryableError (.apiError 429 "Too Many Requests") = true ∧
    retryTransportShouldRetry false 429 = false := by
  constructor
  · decide
  · decide

/-- C7 (amended): the standalone classifier `errors.IsRetryableError`
marks exactly the API errors with status at least 500 or equal to 429 as
retryable (400, 404 and every other non-429 4xx, and every non-API error,
are not retryable); the Transport retry middleware itself retries only on
a network error or a status of at least 500, so 429 responses are not
retried by Transport. -/
theorem retryable_classification (code : Int) (message : String) (e : GoError)
    (status : Int) :
    (IsRetryableError (.apiError code message) = true ↔ (500 ≤ code ∨ code = 429)) ∧
    ((∀ c m, e ≠ .apiError c m) → IsRetryableError e = false) ∧
    (status < 500 → retryTransportShouldRetry false status = false) ∧
    (500 ≤ status → retryTransportShouldRetry false status = true) := by
  refine ⟨?_, ?_, ?_, ?_⟩
  · simp [IsRetryableError, Bool.or_eq_true, decide_eq_true_eq, beq_iff_eq, ge_iff_le]
  · intro h
    cases e with
    | apiError c m => exact absurd rfl (h c m)
    | httpStatus s b => rfl
    | wrapped ctx inner => rfl
    | simple m => rfl
  · intro h
    simp only [retryTransportShouldRetry, Bool.false_or, decide_eq_false_iff_not,
      ge_iff_le, not_le]
    exact h
  · intro h
    simp only [retryTransportShouldRetry, Bool.false_or, decide_eq_true_eq, ge_iff_le]
    exact h

/-- Witness for `retryable_classification`: 429 and 503 are classified
retryable by `IsRetryableError`, a wrapped error is not, and the Transport
middleware does not retry 404 but retries 503. -/
theorem retryable_classification_witness :
    IsRetryableError (.apiError 429 "rate limited") = true ∧
    IsRetryableError (.wrapped "ctx" (.apiError 500 "boom")) = false ∧
    retryTransportShouldRetry false 404 = false ∧
    retryTransportShouldRetry false 503 = true :=
  ⟨(retryable_classification 429 "rate limited" (.simple "") 0).1.mpr (Or.inr rfl),
   (retryable_classification 0 "" (.wrapped "ctx" (.apiError 500 "boom")) 0).2.1
     (fun c m h => GoError.noConfusion h),
   (retryable_classification 0 "" (.simple "") 404).2.2.1 (by decide),
   (retryable_classification 0 "" (.simple "") 503).2.2.2 (by decide)⟩

/-- C8: a `StaticCredentialsProvider` never issues a login or refresh
request; `Retrieve` always returns the configured token with no error,
even at times when that token counts as expired (the store treats it as
non-expiring). -/
theorem static_provider_never_authenticates (p : StaticCredentialsProvider) (now : Int) :
    p.Retrieve.result = .ok p.credentials ∧
    p.Retrieve.refreshRequests = [] ∧
    p.Retrieve.loginRequests = [] ∧
    (p.credentials.Expired now = true → p.Retrieve.result = .ok p.credentials) :=
  ⟨rfl, rfl, rfl, fun _ => rfl⟩

/-- Witness for `static_provider_never_authenticates`: a static token that
is long expired at the time of the call is still returned with no network
request. -/
theorem static_provider_never_authenticates_witness :
    (StaticCredentialsProvider.Retrieve
        ⟨{ accessToken := "tok", refreshToken := "", expiresAt := 0,
           refreshExpiresAt := 0, source := "StaticCredentialsProvider" }⟩).result =
      .ok { accessToken := "tok", refreshToken := "", expiresAt := 0,
            refreshExpiresAt := 0, source := "StaticCredentialsProvider" } ∧
    (StaticCredentialsProvider.Retrieve
        ⟨{ accessToken := "tok", refreshToken := "", expiresAt := 0,
           refreshExpiresAt := 0, source := "StaticCredentialsProvider" }⟩).loginRequests = [] :=
  ⟨(static_provider_never_authenticates _ (10 * minute)).2.2.2 (by decide),
   (static_provider_never_authenticates _ (10 * minute)).2.2.1⟩

/-- C10: `ValidateABHAAddress` accepts every string of length 3 or 4
regardless of its characters: the `@abdm` suffix requirement is checked
only for inputs of length at least 5. -/
theorem short_abha_addresses_accepted (s : String)
    (h : s.length = 3 ∨ s.length = 4) :
    ValidateABHAAddress s = none := by
  unfold ValidateABHAAddress
  rcases h with h | h <;> simp [h]

/-- Witness for `short_abha_addresses_accepted`: 3- and 4-character
addresses that do not end with `@abdm` are accepted. -/
theorem short_abha_addresses_accepted_witness :
    ValidateABHAAddress "xyz" = none ∧ ValidateABHAAddress "wxyz" = none :=
  ⟨short_abha_addresses_accepted "xyz" (Or.inl (by decide)),
   short_abha_addresses_accepted "wxyz" (Or.inr (by decide))⟩

/-- Helper: the observable behaviour of the login tail of `Retrieve`
(credentials.go lines 123-137), for any prior refresh-request record. -/
theorem loginStep_spec (p : ClientCredentialsProvider) (now : Int)
    (login : ClientLoginRequest → Except GoError TokenResponse)
    (rr : List RefreshTokenRequest) :
    (p.loginStep now login rr).refreshRequests = rr ∧
    (p.loginStep now login rr).loginRequests = [p.request] ∧
    (∀ r, login p.request = .ok r →
      (p.loginStep now login rr).result =
        .ok (credsFromResponse r now "ClientCredentialsProvider(login)") ∧
      (p.loginStep now login rr).cache =
        some (credsFromResponse r now "ClientCredentialsProvider(login)")) ∧
    (∀ e, login p.request = .error e →
      (p.loginStep now login rr).result = .error e ∧
      (p.loginStep now login rr).cache = p.cache) := by
  cases h : login p.request with
  | error e =>
      refine ⟨?_, ?_, ?_, ?_⟩ <;>
        simp [ClientCredentialsProvider.loginStep, h]
  | ok r =>
      refine ⟨?_, ?_, ?_, ?_⟩ <;>
        simp [ClientCredentialsProvider.loginStep, h]

/-- C2: when the cached credential is usable at call time, `Retrieve`
returns it unchanged and issues no network authentication request at all
(no refresh, no login). -/
theorem cached_usable_returned_without_network (p : ClientCredentialsProvider)
    (c : Credentials) (now : Int)
    (refresh : RefreshTokenRequest → Except GoError TokenResponse)
    (login : ClientLoginRequest → Except GoError TokenResponse)
    (hc : p.cache = some c) (hu : c.Expired now = false) :
    p.Retrieve now refresh login =
      { result := .ok c, cache := some c, refreshRequests := [], loginRequests := [] } := by
  unfold ClientCredentialsProvider.Retrieve
  rw [hc]
  simp [hu]

/-- Witness for `cached_usable_returned_without_network`: a cached
credential expiring 10 minutes after the call is returned as is, with both
network request logs empty, even though both exchanges would fail. -/
theorem cached_usable_returned_without_network_witness :
    ClientCredentialsProvider.Retrieve
        { request := { clientID := "id", clientSecret := "sec" },
          cache := some { accessToken := "tok", refreshToken := "r",
                          expiresAt := 10 * minute, refreshExpiresAt := 20 * minute,
                          source := "s" } }
        0 (fun _ => .error (.simple "down")) (fun _ => .error (.simple "down")) =
      { result := .ok { accessToken := "tok", refreshToken := "r",
                        expiresAt := 10 * minute, refreshExpiresAt := 20 * minute,
                        source := "s" },
        cache := some { accessToken := "tok", refreshToken := "r",
                        expiresAt := 10 * minute, refreshExpiresAt := 20 * minute,
                        source := "s" },
        refreshRequests := [], loginRequests := [] } :=
  cached_usable_returned_without_network _ _ 0 _ _ rfl (by decide)

/-- C1: when the cached credential is not usable, `Retrieve` issues the
refresh exchange exactly once precisely when a refreshable credential is
cached (and never otherwise); whenever the refresh path is unavailable or
fails, it performs exactly one login exchange with the provider's
configured client-id/secret request, and if that login succeeds the cache
is replaced by the login-derived credential, which is returned. -/
theorem expired_cache_refresh_once_then_login (p : ClientCredentialsProvider)
    (now : Int)
    (refresh : RefreshTokenRequest → Except GoError TokenResponse)
    (login : ClientLoginRequest → Except GoError TokenResponse)
    (hNotUsable : ∀ c, p.cache = some c → c.Expired now = true) :
    (∀ c, p.cache = some c → c.CanRefresh now = true →
      (p.Retrieve now refresh login).refreshRequests = [refreshReqOf c]) ∧
    (∀ c, p.cache = some c → c.CanRefresh now = false →
      (p.Retrieve now refresh login).refreshRequests = []) ∧
    (p.cache = none → (p.Retrieve now refresh login).refreshRequests = []) ∧
    ((∀ c, p.cache = some c → c.CanRefresh now = true →
        ∃ e, refresh (refreshReqOf c) = .error e) →
      (p.Retrieve now refresh login).loginRequests = [p.request] ∧
      (∀ r, login p.request = .ok r →
        (p.Retrieve now refresh login).result =
          .ok (credsFromResponse r now "ClientCredentialsProvider(login)") ∧
        (p.Retrieve now refresh login).cache =
          some (credsFromResponse r now "ClientCredentialsProvider(login)"))) := by
  cases hp : p.cache with
  | none =>
      have hret : p.Retrieve now refresh login = p.loginStep now login [] := by
        unfold ClientCredentialsProvider.Retrieve
        rw [hp]
      refine ⟨?_, ?_, ?_, ?_⟩
      · intro c' hc' _; cases hc'
      · intro c' hc' _; rw [hret]; exact (loginStep_spec p now login []).1
      · intro _; rw [hret]; exact (loginStep_spec p now login []).1
      · intro _
        refine ⟨?_, ?_⟩
        · rw [hret]; exact (loginStep_spec p now login []).2.1
        · intro r hr; rw [hret]; exact (loginStep_spec p now login []).2.2.1 r hr
  | some c =>
      have hexp : c.Expired now = true := hNotUsable c hp
      cases hcr : c.CanRefresh now with
      | false =>
          have hret : p.Retrieve now refresh login = p.loginStep now login [] := by
            simp only [ClientCredentialsProvider.Retrieve, hp, hexp, hcr]
            simp
          refine ⟨?_, ?_, ?_, ?_⟩
          · intro c' hc' h'; cases hc'; rw [h'] at hcr; cases hcr
          · intro c' hc' _; rw [hret]; exact (loginStep_spec p now login []).1
          · intro h; cases h
          · intro _
            refine ⟨?_, ?_⟩
            · rw [hret]; exact (loginStep_spec p now login []).2.1
            · intro r hr; rw [hret]; exact (loginStep_spec p now login []).2.2.1 r hr
      | true =>
          cases href : refresh (refreshReqOf c) with
          | ok r =>
              have hret : p.Retrieve now refresh login =
                  { result := .ok (credsFromResponse r now "ClientCredentialsProvider(refresh)"),
                    cache := some (credsFromResponse r now "ClientCredentialsProvider(refresh)"),
                    refreshRequests := [refreshReqOf c], loginRequests := [] } := by
                simp only [ClientCredentialsProvider.Retrieve, hp, hexp, hcr, href]
                simp
              refine ⟨?_, ?_, ?_, ?_⟩
              · intro c' hc' _; cases hc'; rw [hret]
              · intro c' hc' h'; cases hc'; rw [h'] at hcr; cases hcr
              · intro h; cases h
              · intro hfail
                obtain ⟨e, he⟩ := hfail c rfl hcr
                rw [href] at he; cases he
          | error e0 =>
              have hret : p.Retrieve now refresh login =
                  p.loginStep now login [refreshReqOf c] := by
                simp only [ClientCredentialsProvider.Retrieve, hp, hexp, hcr, href]
                simp
              refine ⟨?_, ?_, ?_, ?_⟩
              · intro c' hc' _; cases hc'; rw [hret]
                exact (loginStep_spec p now login [refreshReqOf c]).1
              · intro c' hc' h'; cases hc'; rw [h'] at hcr; cases hcr
              · intro h; cases h
              · intro _
                refine ⟨?_, ?_⟩
                · rw [hret]; exact (loginStep_spec p now login [refreshReqOf c]).2.1
                · intro r hr; rw [hret]
                  exact (loginStep_spec p now login [refreshReqOf c]).2.2.1 r hr

/-- Witness for `expired_cache_refresh_once_then_login`: an expired but
refreshable cached credential, a failing refresh exchange and a succeeding
login exchange: the refresh is attempted once, the login once with the
configured request, and the login-derived credential is returned. -/
theorem expired_cache_refresh_once_then_login_witness :
    (ClientCredentialsProvider.Retrieve
        { request := { clientID := "id", clientSecret := "sec" },
          cache := some { accessToken := "old", refreshToken := "rt", expiresAt := 0,
                          refreshExpiresAt := 100 * minute, source := "s" } }
        (10 * minute) (fun _ => .error (.simple "refresh down"))
        (fun _ => .ok { accessToken := "new", refreshToken := "nrt",
                        expiresIn := 1800, refreshExpiresIn := 86400 })).refreshRequests =
      [refreshReqOf { accessToken := "old", refreshToken := "rt", expiresAt := 0,
                      refreshExpiresAt := 100 * minute, source := "s" }] ∧
    (ClientCredentialsProvider.Retrieve
        { request := { clientID := "id", clientSecret := "sec" },
          cache := some { accessToken := "old", refreshToken := "rt", expiresAt := 0,
                          refreshExpiresAt := 100 * minute, source := "s" } }
        (10 * minute) (fun _ => .error (.simple "refresh down"))
        (fun _ => .ok { accessToken := "new", refreshToken := "nrt",
                        expiresIn := 1800, refreshExpiresIn := 86400 })).loginRequests =
      [{ clientID := "id", clientSecret := "sec" }] ∧
    (ClientCredentialsProvider.Retrieve
        { request := { clientID := "id", clientSecret := "sec" },
          cache := some { accessToken := "old", refreshToken := "rt", expiresAt := 0,
                          refreshExpiresAt := 100 * minute, source := "s" } }
        (10 * minute) (fun _ => .error (.simple "refresh down"))
        (fun _ => .ok { accessToken := "new", refreshToken := "nrt",
                        expiresIn := 1800, refreshExpiresIn := 86400 })).result =
      .ok (credsFromResponse
            { accessToken := "new", refreshToken := "nrt",
              expiresIn := 1800, refreshExpiresIn := 86400 }
            (10 * minute) "ClientCredentialsProvider(login)") := by
  have h := expired_cache_refresh_once_then_login
      { request := { clientID := "id", clientSecret := "sec" },
        cache := some { accessToken := "old", refreshToken := "rt", expiresAt := 0,
                        refreshExpiresAt := 100 * minute, source := "s" } }
      (10 * minute) (fun _ => .error (.simple "refresh down"))
      (fun _ => .ok { accessToken := "new", refreshToken := "nrt",
                      expiresIn := 1800, refreshExpiresIn := 86400 })
      (by intro c hc
          have hc' : some { accessToken := "old", refreshToken := "rt", expiresAt := 0,
                            refreshExpiresAt := 100 * minute,
                            source := "s" } = some c := hc
          cases hc'
          decide)
  have hfail : ∀ c : Credentials,
      ({ request := { clientID := "id", clientSecret := "sec" },
         cache := some { accessToken := "old", refreshToken := "rt", expiresAt := 0,
                         refreshExpiresAt := 100 * minute,
                         source := "s" } } : ClientCredentialsProvider).cache = some c →
      c.CanRefresh (10 * minute) = true →
      ∃ e, (fun _ : RefreshTokenRequest => (.error (.simple "refresh down") :
              Except GoError TokenResponse)) (refreshReqOf c) = .error e := by
    intro c _ _
    exact ⟨.simple "refresh down", rfl⟩
  exact ⟨h.1 _ rfl (by decide), (h.2.2.2 hfail).1, ((h.2.2.2 hfail).2 _ rfl).1⟩

/-- Helper: `clientLoginFlow` on an authentication failure: with non-empty
client id and secret, the error from `Retrieve` is wrapped with
"failed to authenticate with provided credentials" and the provider cache
is handed back unchanged. -/
theorem clientLoginFlow_error (cid cs : String) (now : Int)
    (refresh : RefreshTokenRequest → Except GoError TokenResponse)
    (login : ClientLoginRequest → Except GoError TokenResponse) (e : GoError)
    (hcid : ¬ cid = "") (hcs : ¬ cs = "")
    (he : (ClientCredentialsProvider.Retrieve
        { request := { clientID := cid, clientSecret := cs }, cache := none }
        now refresh login).result = .error e)
    (hc : (ClientCredentialsProvider.Retrieve
        { request := { clientID := cid, clientSecret := cs }, cache := none }
        now refresh login).cache = none) :
    clientLoginFlow cid cs now refresh login =
      (.error (.wrapped "failed to authenticate with provided credentials" e), none) := by
  unfold clientLoginFlow
  rw [if_neg hcid, if_neg hcs]
  simp only []
  rw [he, hc]

/-- C3: when the remote login endpoint answers HTTP 401 with body
`{"code":401,"error":"invalid client credentials"}`, `Retrieve` on an
empty cache propagates the resulting authentication error — whose root
cause carries code 401 and a message that surfaces
"invalid client credentials" — and leaves the cache empty, so the next
call retries; `Client.Login` wraps and propagates the same error. -/
theorem login_rejection_propagates_and_cache_stays_empty (now : Int)
    (refresh : RefreshTokenRequest → Except GoError TokenResponse)
    (unmarshal : String → Except GoError TokenResponse)
    (rawBody cid cs : String) (hcid : ¬ cid = "") (hcs : ¬ cs = "") :
    (ClientCredentialsProvider.Retrieve
        { request := { clientID := cid, clientSecret := cs }, cache := none } now refresh
        (fun _ => clientLoginExchange
            (httpDoClassify 401 rawBody (some invalidCredsEnvelope)) unmarshal)).result =
      .error authRejectionError ∧
    (ClientCredentialsProvider.Retrieve
        { request := { clientID := cid, clientSecret := cs }, cache := none } now refresh
        (fun _ => clientLoginExchange
            (httpDoClassify 401 rawBody (some invalidCredsEnvelope)) unmarshal)).cache =
      none ∧
    authRejectionError.rootCode = some 401 ∧
    authRejectionError.rootMessage = some ("Error 401: " ++ "invalid client credentials") ∧
    clientLoginFlow cid cs now refresh
        (fun _ => clientLoginExchange
            (httpDoClassify 401 rawBody (some invalidCredsEnvelope)) unmarshal) =
      (.error (.wrapped "failed to authenticate with provided credentials" authRejectionError),
        none) := by
  have hstr : invalidCredsEnvelope.string = "Error 401: invalid client credentials" := by
    decide
  have hLe : (fun _ : ClientLoginRequest => clientLoginExchange
        (httpDoClassify 401 rawBody (some invalidCredsEnvelope)) unmarshal)
        ({ clientID := cid, clientSecret := cs } : ClientLoginRequest) =
      .error authRejectionError := by
    have hred : (fun _ : ClientLoginRequest => clientLoginExchange
          (httpDoClassify 401 rawBody (some invalidCredsEnvelope)) unmarshal)
          ({ clientID := cid, clientSecret := cs } : ClientLoginRequest) =
        .error (.wrapped "client login request failed"
          (.apiError 401 invalidCredsEnvelope.string)) := rfl
    rw [hred, hstr]
    rfl
  have hret : ClientCredentialsProvider.Retrieve
      { request := { clientID := cid, clientSecret := cs }, cache := none } now refresh
      (fun _ => clientLoginExchange
          (httpDoClassify 401 rawBody (some invalidCredsEnvelope)) unmarshal) =
      ClientCredentialsProvider.loginStep
        { request := { clientID := cid, clientSecret := cs }, cache := none } now
        (fun _ => clientLoginExchange
            (httpDoClassify 401 rawBody (some invalidCredsEnvelope)) unmarshal) [] := rfl
  have hspec := (loginStep_spec
      { request := { clientID := cid, clientSecret := cs }, cache := none } now
      (fun _ => clientLoginExchange
          (httpDoClassify 401 rawBody (some invalidCredsEnvelope)) unmarshal) []).2.2.2
      authRejectionError hLe
  refine ⟨?_, ?_, rfl, by decide, ?_⟩
  · rw [hret]; exact hspec.1
  · rw [hret]; exact hspec.2
  · exact clientLoginFlow_error cid cs now refresh _ authRejectionError hcid hcs
      (hret ▸ hspec.1) (hret ▸ hspec.2)

/-- Witness for `login_rejection_propagates_and_cache_stays_empty` at a
concrete configuration and body. -/
theorem login_rejection_witness :
    (ClientCredentialsProvider.Retrieve
        { request := { clientID := "id", clientSecret := "sec" }, cache := none } 0
        (fun _ => .error (.simple "unused"))
        (fun _ => clientLoginExchange
            (httpDoClassify 401 "rawbody" (some invalidCredsEnvelope))
            (fun _ => .error (.simple "unused")))).result =
      .error authRejectionError ∧
    (ClientCredentialsProvider.Retrieve
        { request := { clientID := "id", clientSecret := "sec" }, cache := none } 0
        (fun _ => .error (.simple "unused"))
        (fun _ => clientLoginExchange
            (httpDoClassify 401 "rawbody" (some invalidCredsEnvelope))
            (fun _ => .error (.simple "unused")))).cache = none := by
  have h := login_rejection_propagates_and_cache_stays_empty 0
      (fun _ => .error (.simple "unused")) (fun _ => .error (.simple "unused"))
      "rawbody" "id" "sec" (by decide) (by decide)
  exact ⟨h.1, h.2.1⟩

/-- Helper: every wait performed by the retry loop starting from delay
`d` equals `d * 2 ^ i`, where `i` is the wait's index. -/
theorem retryLoop_waits (fn : Nat → Option GoError) (cancel : Nat → Bool)
    (ctxErr : GoError) :
    ∀ (remaining attempt : Nat) (delay : Int) (i : Nat),
      i < (retryLoop fn cancel ctxErr attempt remaining delay).2.length →
      (retryLoop fn cancel ctxErr attempt remaining delay).2.getD i 0 = delay * 2 ^ i := by
  intro remaining
  induction remaining with
  | zero =>
      intro attempt delay i h
      cases hfa : fn attempt <;> (rw [retryLoop, hfa] at h; simp at h)
  | succ r ih =>
      intro attempt delay i h
      cases hfa : fn attempt with
      | none => rw [retryLoop, hfa] at h; simp at h
      | some e =>
          cases hca : cancel attempt with
          | true => rw [retryLoop, hfa, hca] at h; simp at h
          | false =>
              cases i with
              | zero =>
                  rw [retryLoop, hfa, hca]
                  simp
              | succ j =>
                  have hlen : j < (retryLoop fn cancel ctxErr (attempt + 1) r
                      (2 * delay)).2.length := by
                    rw [retryLoop, hfa, hca] at h
                    simp at h
                    omega
                  have hj := ih (attempt + 1) (2 * delay) j hlen
                  rw [retryLoop, hfa, hca]
                  simp only [Bool.false_eq_true, if_false, List.getD_cons_succ]
                  rw [hj]
                  ring

/-- Helper: if the operation first succeeds at attempt `k` inside the
window and neither failure handling nor cancellation intervenes before,
the loop returns success. -/
theorem retryLoop_success (fn : Nat → Option GoError) (cancel : Nat → Bool)
    (ctxErr : GoError) :
    ∀ (remaining attempt k : Nat) (delay : Int),
      attempt ≤ k → k ≤ attempt + remaining → fn k = none →
      (∀ j, attempt ≤ j → j < k → cancel j = false) →
      (retryLoop fn cancel ctxErr attempt remaining delay).1 = .ok := by
  intro remaining
  induction remaining with
  | zero =>
      intro attempt k delay h1 h2 hk _
      have hak : k = attempt := by omega
      subst hak
      rw [retryLoop, hk]
  | succ r ih =>
      intro attempt k delay h1 h2 hk hcan
      cases hfa : fn attempt with
      | none => rw [retryLoop, hfa]
      | some e =>
          have hak : attempt ≠ k := by
            intro h; rw [h, hk] at hfa; cases hfa
          have hca : cancel attempt = false := hcan attempt le_rfl (by omega)
          rw [retryLoop, hfa, hca]
          simp only [Bool.false_eq_true, if_false]
          exact ih (attempt + 1) k (2 * delay) (by omega) (by omega) hk
            (fun j hj1 hj2 => hcan j (by omega) hj2)

/-- Helper: if every attempt in the window fails and cancellation never
fires, the loop returns the error of the final attempt. -/
theorem retryLoop_all_fail (fn : Nat → Option GoError) (cancel : Nat → Bool)
    (ctxErr : GoError) :
    ∀ (remaining attempt : Nat) (delay : Int) (e : GoError),
      (∀ j, attempt ≤ j → j < attempt + remaining →
        (fn j).isSome = true ∧ cancel j = false) →
      fn (attempt + remaining) = some e →
      (retryLoop fn cancel ctxErr attempt remaining delay).1 = .failed e := by
  intro remaining
  induction remaining with
  | zero =>
      intro attempt delay e _ hlast
      rw [Nat.add_zero] at hlast
      rw [retryLoop, hlast]
  | succ r ih =>
      intro attempt delay e hprev hlast
      obtain ⟨hsome, hca⟩ := hprev attempt le_rfl (by omega)
      obtain ⟨e0, hfa⟩ := Option.isSome_iff_exists.mp hsome
      rw [retryLoop, hfa, hca]
      simp only [Bool.false_eq_true, if_false]
      refine ih (attempt + 1) (2 * delay) e
        (fun j hj1 hj2 => hprev j (by omega) (by omega)) ?_
      have harith : attempt + 1 + r = attempt + (r + 1) := by omega
      rw [harith]
      exact hlast

/-- Helper: if cancellation fires during the wait after attempt `k`
(every attempt up to `k` failing, no earlier cancellation, and attempt `k`
not the last), the loop returns the context's error. -/
theorem retryLoop_cancelled (fn : Nat → Option GoError) (cancel : Nat → Bool)
    (ctxErr : GoError) :
    ∀ (remaining attempt k : Nat) (delay : Int),
      attempt ≤ k → k < attempt + remaining →
      (∀ j, attempt ≤ j → j ≤ k → (fn j).isSome = true) →
      (∀ j, attempt ≤ j → j < k → cancel j = false) →
      cancel k = true →
      (retryLoop fn cancel ctxErr attempt remaining delay).1 = .cancelled ctxErr := by
  intro remaining
  induction remaining with
  | zero =>
      intro attempt k delay h1 h2 _ _ _
      omega
  | succ r ih =>
      intro attempt k delay h1 h2 hsome hcan hck
      obtain ⟨e0, hfa⟩ := Option.isSome_iff_exists.mp (hsome attempt le_rfl h1)
      by_cases hak : attempt = k
      · subst hak
        rw [retryLoop, hfa, hck]
        simp
      · have hca : cancel attempt = false := hcan attempt le_rfl (by omega)
        rw [retryLoop, hfa, hca]
        simp only [Bool.false_eq_true, if_false]
        exact ih (attempt + 1) k (2 * delay) (by omega) (by omega)
          (fun j hj1 hj2 => hsome j (by omega) hj2)
          (fun j hj1 hj2 => hcan j (by omega) hj2) hck

/-- C6: `RetryWithBackoff` waits `initialDelay * 2 ^ attempt` after the
failed attempt number `attempt`; it returns success as soon as an
invocation succeeds (up to `maxRetries` additional tries after the
first); it returns the last invocation's error when every invocation
fails without cancellation; and when the cancellation signal fires during
a wait it returns the context's error instead of the operation's. -/
theorem retry_with_backoff_spec (fn : Nat → Option GoError) (cancel : Nat → Bool)
    (ctxErr : GoError) (maxRetries : Nat) (initialDelay : Int) :
    (∀ i, i < (RetryWithBackoff fn cancel ctxErr maxRetries initialDelay).2.length →
      (RetryWithBackoff fn cancel ctxErr maxRetries initialDelay).2.getD i 0 =
        initialDelay * 2 ^ i) ∧
    (∀ k, k ≤ maxRetries → fn k = none → (∀ j, j < k → cancel j = false) →
      (RetryWithBackoff fn cancel ctxErr maxRetries initialDelay).1 = .ok) ∧
    (∀ e, (∀ j, j < maxRetries → (fn j).isSome = true ∧ cancel j = false) →
      fn maxRetries = some e →
      (RetryWithBackoff fn cancel ctxErr maxRetries initialDelay).1 = .failed e) ∧
    (∀ k, k < maxRetries → (∀ j, j ≤ k → (fn j).isSome = true) →
      (∀ j, j < k → cancel j = false) → cancel k = true →
      (RetryWithBackoff fn cancel ctxErr maxRetries initialDelay).1 =
        .cancelled ctxErr) := by
  refine ⟨?_, ?_, ?_, ?_⟩
  · exact fun i h => retryLoop_waits fn cancel ctxErr maxRetries 0 initialDelay i h
  · intro k hk hfk hcan
    exact retryLoop_success fn cancel ctxErr maxRetries 0 k initialDelay
      (Nat.zero_le k) (by omega) hfk (fun j _ hj => hcan j hj)
  · intro e hprev hlast
    refine retryLoop_all_fail fn cancel ctxErr maxRetries 0 initialDelay e
      (fun j _ hj => hprev j (by omega)) ?_
    rw [Nat.zero_add]
    exact hlast
  · intro k hk hsome hcan hck
    exact retryLoop_cancelled fn cancel ctxErr maxRetries 0 k initialDelay
      (Nat.zero_le k) (by omega) (fun j _ hj => hsome j hj)
      (fun j _ hj => hcan j hj) hck

/-- Witness for `retry_with_backoff_spec`: an operation failing twice and
succeeding on its third invocation, with `maxRetries = 3` and initial
delay 7: the outcome is success, and the two waits performed are 7 and
14 nanoseconds (`7 * 2 ^ 0`, `7 * 2 ^ 1`). -/
theorem retry_with_backoff_spec_witness :
    (RetryWithBackoff (fun i => if i == 2 then none else some (.simple "boom"))
        (fun _ => false) (.simple "context cancelled") 3 7).1 = .ok ∧
    (RetryWithBackoff (fun i => if i == 2 then none else some (.simple "boom"))
        (fun _ => false) (.simple "context cancelled") 3 7).2.getD 0 0 = 7 * 2 ^ 0 ∧
    (RetryWithBackoff (fun i => if i == 2 then none else some (.simple "boom"))
        (fun _ => false) (.simple "context cancelled") 3 7).2.getD 1 0 = 7 * 2 ^ 1 := by
  have h := retry_with_backoff_spec
      (fun i => if i == 2 then none else some (.simple "boom"))
      (fun _ => false) (.simple "context cancelled") 3 7
  exact ⟨h.2.1 2 (by decide) (by decide) (fun j _ => rfl),
    h.1 0 (by decide), h.1 1 (by decide)⟩

/-- Helper: inserting into the key-sorted list never yields the empty
list. -/
theorem insertByKey_ne_nil (p : String × String) (l : List (String × String)) :
    insertByKey p l ≠ [] := by
  cases l with
  | nil => rw [insertByKey]; simp
  | cons q qs =>
      rw [insertByKey]
      split <;> simp

/-- Helper: the key sort yields the empty list only on the empty list. -/
theorem sortByKey_eq_nil_iff (l : List (String × String)) :
    sortByKey l = [] ↔ l = [] := by
  cases l with
  | nil => rw [sortByKey]
  | cons p ps =>
      rw [sortByKey]
      constructor
      · intro h; exact absurd h (insertByKey_ne_nil p (sortByKey ps))
      · intro h; cases h

/-- Helper: a `&`-join of fragments that each have positive length is a
string of positive length. -/
theorem joinAmp_length_pos (l : List String) (h : ∀ x ∈ l, 0 < x.length)
    (hne : l ≠ []) : 0 < (joinAmp l).length := by
  induction l with
  | nil => exact absurd rfl hne
  | cons x xs ih =>
      cases xs with
      | nil =>
          rw [joinAmp]
          exact h x (by simp)
      | cons y ys =>
          rw [joinAmp]
          · rw [String.length_append, String.length_append]
            have hx := h x (by simp)
            omega
          · simp

/-- Helper: the encoded query of a non-empty (kept) parameter list is a
non-empty string, because every fragment contains `=`. -/
theorem encodeValues_ne_empty (vs : List (String × String)) (h : vs ≠ []) :
    ¬ encodeValues vs = "" := by
  intro he
  have hlen : 0 < (encodeValues vs).length := by
    unfold encodeValues
    apply joinAmp_length_pos
    · intro x hx
      obtain ⟨p, hp, hpx⟩ := List.mem_map.mp hx
      rw [← hpx, String.length_append, String.length_append]
      have heq : ("=" : String).length = 1 := rfl
      omega
    · intro hmap
      rw [List.map_eq_nil_iff] at hmap
      exact h ((sortByKey_eq_nil_iff vs).mp hmap)
  rw [he] at hlen
  simp at hlen

/-- C9: the Transport builds the request URL as base URL, then path, then
the encoded query of exactly the parameters whose value is non-empty: a
parameter with an empty-string value anywhere in the list is omitted from
the URL (it does not change the URL at all); with no non-empty parameter
the URL is just base plus path (no `?`), and otherwise the encoded query
of the kept parameters is appended after `?`. -/
theorem url_built_with_empty_params_omitted (baseURL path k : String)
    (ps1 ps2 params : List (String × String)) :
    buildRequestURL baseURL path (ps1 ++ (k, "") :: ps2) =
      buildRequestURL baseURL path (ps1 ++ ps2) ∧
    (params.filter (fun p => p.2 != "") = [] →
      buildRequestURL baseURL path params = baseURL ++ path) ∧
    (params.filter (fun p => p.2 != "") ≠ [] →
      buildRequestURL baseURL path params =
        baseURL ++ path ++ "?" ++ encodeValues (params.filter (fun p => p.2 != ""))) := by
  refine ⟨?_, ?_, ?_⟩
  · simp only [buildRequestURL, List.filter_append, List.filter_cons]
    simp
  · intro h
    simp only [buildRequestURL, h]
    have hval : encodeValues [] = "" := rfl
    rw [hval]
    simp [String.append_empty]
  · intro h
    simp only [buildRequestURL]
    rw [if_neg (encodeValues_ne_empty _ h), ← String.append_assoc]

/-- Witness for `url_built_with_empty_params_omitted`: concrete URLs with
an empty-valued parameter dropped, an all-empty parameter set producing no
`?`, and a kept parameter appended after `?`. -/
theorem url_built_witness :
    buildRequestURL "https://api.eka.care" "/profile" [("a", "1"), ("b", "")] =
      buildRequestURL "https://api.eka.care" "/profile" [("a", "1")] ∧
    buildRequestURL "https://api.eka.care" "/profile" [("b", "")] =
      "https://api.eka.care" ++ "/profile" ∧
    buildRequestURL "https://api.eka.care" "/profile" [("a", "1")] =
      "https://api.eka.care" ++ "/profile" ++ "?" ++ encodeValues [("a", "1")] := by
  have h1 := url_built_with_empty_params_omitted "https://api.eka.care" "/profile" "b"
      [("a", "1")] [] []
  have h2 := url_built_with_empty_params_omitted "https://api.eka.care" "/profile" "x"
      [] [] [("b", "")]
  have h3 := url_built_with_empty_params_omitted "https://api.eka.care" "/profile" "x"
      [] [] [("a", "1")]
  exact ⟨h1.1, h2.2.1 (by decide), h3.2.2 (by decide)⟩

end EkaSDK
